import Mathlib

/-! Song library: query builders, verse extractor and request gates.

A shallow embedding of `services/songs/store.go`, `services/songs/routes.go`
and `services/songs/errors.go`, with the properties of the statement
builders (`buildUpdateQuery`, `buildFilterQuery`), of the verse paginator
(`extractVerses`) and of the size gates of the list and lyrics handlers.

Conventions of the embedding:
* a Go `string` is a Lean `String`; a nullable pointer field (`*string`,
  `*time.Time`, `*uint`) is an `Option`;
* a Go `uint` is a `Nat` below `2 ^ 64`, and `uint` addition is reduced
  modulo `2 ^ 64`;
* a Go slice expression that can fail at run time returns an `Option`,
  `none` standing for the run-time failure;
* `fmt.Sprintf` with `%d` on an unsigned value is the decimal rendering
  `toString : Nat → String`, with `%s` it is the string itself.
-/

set_option autoImplicit false
set_option maxRecDepth 4096

namespace SongLibrary

/-! ## Data model (`store.go`, lines 13-20 and 101-105) -/

/-- The 128-bit identifier `uuid.UUID`, as the number its 16 bytes spell. -/
structure UUID where
  val : Nat
deriving DecidableEq

/-- An instant `time.Time`, as seconds since the Unix epoch. -/
structure Time where
  unix : Int
deriving DecidableEq

/-- Values of Go type `any` that are bound to a placeholder of a statement.
The constructors are the dynamic types a caller of this package can hand to
the driver: `string`, `time.Time`, `uuid.UUID` and `uint`. -/
inductive Arg where
  | str (s : String)
  | time (t : Time)
  | uuid (u : UUID)
  | uint (n : Nat)
deriving DecidableEq

/-- The struct `Song`. -/
structure Song where
  SongID : UUID
  SongName : Option String
  SongText : Option String
  GroupName : Option String
  Link : Option String
  ReleaseDate : Option Time
deriving DecidableEq

/-- The struct `SongsFilter`. -/
structure SongsFilter where
  SongName : Option String
  ReleaseDate : Option Time
  GroupName : Option String
deriving DecidableEq

/-! ## `buildUpdateQuery` (`store.go`, lines 60-89) -/

/-- Lines 61-83 of `buildUpdateQuery`: the locals `setClauses` and `args`
after the five field tests. -/
def updateSetClauses (song : Song) : List String × List Arg :=
  let setClauses : List String := []
  let args : List Arg := []
  let (setClauses, args) :=
    match song.SongName with
    | some v =>
      let args := args ++ [Arg.str v]
      (setClauses ++ ["song_name = $" ++ toString args.length], args)
    | none => (setClauses, args)
  let (setClauses, args) :=
    match song.SongText with
    | some v =>
      let args := args ++ [Arg.str v]
      (setClauses ++ ["song_text = $" ++ toString args.length], args)
    | none => (setClauses, args)
  let (setClauses, args) :=
    match song.GroupName with
    | some v =>
      let args := args ++ [Arg.str v]
      (setClauses ++ ["group_name = $" ++ toString args.length], args)
    | none => (setClauses, args)
  let (setClauses, args) :=
    match song.Link with
    | some v =>
      let args := args ++ [Arg.str v]
      (setClauses ++ ["link = $" ++ toString args.length], args)
    | none => (setClauses, args)
  let (setClauses, args) :=
    match song.ReleaseDate with
    | some v =>
      let args := args ++ [Arg.time v]
      (setClauses ++ ["release_date = $" ++ toString args.length], args)
    | none => (setClauses, args)
  (setClauses, args)

/-- The function `buildUpdateQuery`: the statement text and its arguments. -/
def buildUpdateQuery (songID : UUID) (song : Song) : String × List Arg :=
  let (setClauses, args) := updateSetClauses song
  let args := args ++ [Arg.uuid songID]
  let query := "UPDATE songs SET " ++ ", ".intercalate setClauses
    ++ " WHERE song_id = $" ++ toString args.length
  (query, args)

/-! ### Reading of the update contract -/

/-- The updatable columns in the order the contract names them, each with
the value submitted for it (if any). -/
def updateFields (song : Song) : List (String × Option Arg) :=
  [("song_name", song.SongName.map Arg.str),
   ("song_text", song.SongText.map Arg.str),
   ("group_name", song.GroupName.map Arg.str),
   ("link", song.Link.map Arg.str),
   ("release_date", song.ReleaseDate.map Arg.time)]

/-- The columns whose value is non-null, in order, with that value. -/
def presentFields (fields : List (String × Option Arg)) : List (String × Arg) :=
  fields.filterMap fun f => f.2.map fun v => (f.1, v)

/-- Number of non-null fields among the five updatable ones. -/
def updateFieldCount (song : Song) : Nat :=
  (if song.SongName.isSome then 1 else 0) + (if song.SongText.isSome then 1 else 0)
    + (if song.GroupName.isSome then 1 else 0) + (if song.Link.isSome then 1 else 0)
    + (if song.ReleaseDate.isSome then 1 else 0)

/-- Rendering of a clause from its text up to the placeholder and the
placeholder number, as `fmt.Sprintf("... $%d", n)` does. -/
def placeholderClause (head : String) (n : Nat) : String :=
  head ++ "$" ++ toString n

/-! ## `buildFilterQuery` (`store.go`, lines 130-162) -/

/-- Lines 131-147 of `buildFilterQuery`: the locals `whereClauses` and
`args` after the three field tests. -/
def filterWhereClauses (filter : SongsFilter) : List String × List Arg :=
  let whereClauses : List String := []
  let args : List Arg := []
  let (whereClauses, args) :=
    match filter.SongName with
    | some v =>
      let args := args ++ [Arg.str v]
      (whereClauses ++ ["song_name LIKE $" ++ toString args.length], args)
    | none => (whereClauses, args)
  let (whereClauses, args) :=
    match filter.ReleaseDate with
    | some v =>
      let args := args ++ [Arg.time v]
      (whereClauses ++ ["release_date == $" ++ toString args.length], args)
    | none => (whereClauses, args)
  let (whereClauses, args) :=
    match filter.GroupName with
    | some v =>
      let args := args ++ [Arg.str v]
      (whereClauses ++ ["group_name LIKE $" ++ toString args.length], args)
    | none => (whereClauses, args)
  (whereClauses, args)

/-- Lines 149-152 of `buildFilterQuery`: the local `where`. -/
def filterWhere (filter : SongsFilter) : String :=
  let (whereClauses, args) := filterWhereClauses filter
  if args.length ≠ 0 then "WHERE " ++ " AND ".intercalate whereClauses else ""

/-- The function `buildFilterQuery`: the statement text and its arguments. -/
def buildFilterQuery (pageCurrent pageSize : Nat) (filter : SongsFilter) :
    String × List Arg :=
  let (_, args) := filterWhereClauses filter
  let query :=
    "SELECT song_id, song_name, song_text, group_name, link, release_date FROM songs "
      ++ filterWhere filter ++ " LIMIT " ++ toString pageSize
      ++ " OFFSET " ++ toString pageCurrent ++ ";"
  (query, args)

/-! ### Reading of the filter contract -/

/-- The filter fields in the order the contract names them (name, date,
group): the text of the condition up to its placeholder, and the value. -/
def filterFields (filter : SongsFilter) : List (String × Option Arg) :=
  [("song_name LIKE ", filter.SongName.map Arg.str),
   ("release_date == ", filter.ReleaseDate.map Arg.time),
   ("group_name LIKE ", filter.GroupName.map Arg.str)]

/-- Number of non-null fields of a filter. -/
def filterFieldCount (filter : SongsFilter) : Nat :=
  (if filter.SongName.isSome then 1 else 0) + (if filter.ReleaseDate.isSome then 1 else 0)
    + (if filter.GroupName.isSome then 1 else 0)

/-- The text `sub` occurs in the text `s`. -/
def Occurs (sub s : String) : Prop :=
  sub.toList <:+: s.toList

instance (sub s : String) : Decidable (Occurs sub s) :=
  inferInstanceAs (Decidable (sub.toList <:+: s.toList))

/-- The text `s` ends with the text `suffix`. -/
def EndsWith (s suffix : String) : Prop :=
  suffix.toList <:+ s.toList

instance (s suffix : String) : Decidable (EndsWith s suffix) :=
  inferInstanceAs (Decidable (suffix.toList <:+ s.toList))

/-! ### The backend's `LIKE` operator

`LIKE` is evaluated by the database, not by this package; the definition
below is its PostgreSQL reading: `%` stands for any run of characters, `_`
for any single character, a backslash makes the next character literal, and
every other character stands for itself. -/

/-- Whether `subject` matches the `LIKE` pattern `pattern`. A pattern that
ends in a lone backslash, which the backend refuses, matches nothing. -/
def likeMatch : (pattern subject : List Char) → Bool
  | [], subject => subject.isEmpty
  | '%' :: pattern, subject => subject.tails.any (likeMatch pattern)
  | '_' :: pattern, subject =>
    match subject with
    | [] => false
    | _ :: rest => likeMatch pattern rest
  | '\\' :: [], _ => false
  | '\\' :: c :: pattern, subject =>
    match subject with
    | [] => false
    | x :: rest => x == c && likeMatch pattern rest
  | c :: pattern, subject =>
    match subject with
    | [] => false
    | x :: rest => x == c && likeMatch pattern rest

/-- The condition `column LIKE pattern` on a stored text. -/
def sqlLike (stored pattern : String) : Bool :=
  likeMatch pattern.toList stored.toList

/-- A text free of the characters that `LIKE` reads specially. -/
def likeLiteral (s : String) : Prop :=
  ∀ c ∈ s.toList, c ≠ '%' ∧ c ≠ '_' ∧ c ≠ '\\'

instance (s : String) : Decidable (likeLiteral s) :=
  inferInstanceAs (Decidable (∀ c ∈ s.toList, c ≠ '%' ∧ c ≠ '_' ∧ c ≠ '\\'))

/-! ## `extractVerses` and `GetLyrcsBySongID` (`store.go`, lines 164-187) -/

/-- The library call `strings.Split(s, "\n\n")` on the characters of `s`:
the pieces between the occurrences of the separator, found left to right
without overlap; one piece more than there are occurrences. -/
def splitBlankLines : List Char → List (List Char)
  | [] => [[]]
  | '\n' :: '\n' :: rest => [] :: splitBlankLines rest
  | c :: rest =>
    match splitBlankLines rest with
    | [] => [[c]]
    | verse :: verses => (c :: verse) :: verses

/-- The verses of a text: `strings.Split(songText, "\n\n")`. -/
def splitVerses (songText : String) : List String :=
  (splitBlankLines songText.toList).map String.mk

/-- Addition of two `uint` values on a 64-bit platform. -/
def uintAdd (a b : Nat) : Nat :=
  (a + b) % 2 ^ 64

/-- The slice expression `xs[lo:hi]` of a slice whose capacity is its
length; it fails at run time (`none`) unless `lo ≤ hi ≤ len(xs)`. -/
def sliceExpr {α : Type} (xs : List α) (lo hi : Nat) : Option (List α) :=
  if lo ≤ hi ∧ hi ≤ xs.length then some ((xs.take hi).drop lo) else none

/-- The function `extractVerses`; `none` is the run-time failure of the
slice expression on its last line. The conversion `uint(len(verses))` is
exact, a length being a non-negative `int`. -/
def extractVerses (songText : String) (verseCurrent verseCount : Nat) :
    Option (List String) :=
  let verses := splitVerses songText
  let versesLength := verses.length
  if verseCurrent ≥ versesLength then
    some []
  else
    let versesEnd := uintAdd verseCurrent verseCount
    let versesEnd := if versesEnd > versesLength then verses.length else versesEnd
    sliceExpr verses verseCurrent versesEnd

/-- The method `GetLyrcsBySongID`. The lookup `GetSongByID` goes to the
database and is a parameter: it yields the scanned song and the error of
the lookup, if any. The result is the pair `([]string, error)` the method
returns (`none` for a nil slice), or `none` when `extractVerses` fails at
run time. -/
def GetLyrcsBySongID (getSongByID : UUID → Song × Option String) (songID : UUID)
    (verseCurrent verseCount : Nat) : Option (Option (List String) × Option String) :=
  let (song, err) := getSongByID songID
  match song.SongText with
  | some songText =>
    (extractVerses songText verseCurrent verseCount).map fun verses => (some verses, none)
  | none => some (none, err)

/-- The method `GetSongsFiltered`. Running the statement and scanning its
rows is the database's part and is a parameter. -/
def GetSongsFiltered (dbQuery : String → List Arg → Except String (List Song))
    (pageCurrent pageSize : Nat) (filter : SongsFilter) : Except String (List Song) :=
  let (query, args) := buildFilterQuery pageCurrent pageSize filter
  dbQuery query args

/-! ## Errors (`errors.go`) and the size gates of the handlers (`routes.go`) -/

def PAGE_SIZE_DEAFULT : Nat := 10
def PAGE_SIZE_MAX : Nat := 50
def VERSE_COUNT_DEFAULT : Nat := 20
def VERSE_COUNT_MAX : Nat := 50

/-- The struct `ServiceError`; `Kind` is its field `Type`. -/
structure ServiceError where
  Kind : String
  Detail : String
deriving DecidableEq

/-- What a handler puts in the field `Message` of a response. -/
inductive Payload where
  | songs (songs : List Song)
  | lyrcs (verses : Option (List String))
deriving DecidableEq

/-- The struct `types.Response`. -/
structure Response where
  Message : Option Payload
  Error : Option ServiceError
deriving DecidableEq

def StatusOK : Nat := 200
def StatusBadRequest : Nat := 400

/-- The function `WrongParametersError`. -/
def WrongParametersError : Nat × Response :=
  (StatusBadRequest,
    { Message := none
      Error := some
        { Kind := "WrongParameters"
          Detail := "Wrong parameters for endpoint. Consider reading documentation." } })

/-- The function `BadPageSizeError`. -/
def BadPageSizeError (suppliedSize : Nat) : Nat × Response :=
  (StatusBadRequest,
    { Message := none
      Error := some
        { Kind := "BadPageSize"
          Detail := "Page size more than " ++ toString PAGE_SIZE_MAX
            ++ " is not allowed. Yours is " ++ toString suppliedSize ++ "." } })

/-- The function `BadVerseCountError`. -/
def BadVerseCountError (suppliedCount : Nat) : Nat × Response :=
  (StatusBadRequest,
    { Message := none
      Error := some
        { Kind := "BadVerseCount"
          Detail := "Verse count more than " ++ toString VERSE_COUNT_MAX
            ++ " is not allowed. Yours is " ++ toString suppliedCount ++ "." } })

/-- A call of a handler to a method of the store, with its arguments. -/
inductive StoreCall where
  | GetSongsFiltered (pageCurrent pageSize : Nat) (filter : SongsFilter)
  | GetLyrcsBySongID (songID : UUID) (verseCurrent verseCount : Nat)
deriving DecidableEq

/-- What a handler did with a request: the status and body it wrote with
`c.JSON` (`none` if it failed at run time before writing one) and the calls
it made to the store, in order. -/
structure Handled where
  response : Option (Nat × Response)
  calls : List StoreCall
deriving DecidableEq

/-- The struct `GetSongsRequest` once bound; the date is the one inside
`BindDate`. -/
structure GetSongsRequest where
  PageCurrent : Nat
  PageSize : Option Nat
  SongName : Option String
  GroupName : Option String
  ReleaseDate : Option Time
deriving DecidableEq

/-- The handler `handleGetSongs`. `bound` is the outcome of `c.Bind`, `none`
when binding fails. -/
def handleGetSongs (dbQuery : String → List Arg → Except String (List Song))
    (bound : Option GetSongsRequest) : Handled :=
  match bound with
  | none => { response := some WrongParametersError, calls := [] }
  | some request =>
    let pageSize :=
      match request.PageSize with
      | some size => size
      | none => PAGE_SIZE_DEAFULT
    if pageSize > PAGE_SIZE_MAX then
      { response := some (BadPageSizeError pageSize), calls := [] }
    else
      let filter : SongsFilter :=
        { SongName := request.SongName
          GroupName := request.GroupName
          ReleaseDate := request.ReleaseDate }
      let call := StoreCall.GetSongsFiltered request.PageCurrent pageSize filter
      match GetSongsFiltered dbQuery request.PageCurrent pageSize filter with
      | Except.error _ => { response := some WrongParametersError, calls := [call] }
      | Except.ok songs =>
        { response := some (StatusOK, { Message := some (Payload.songs songs), Error := none })
          calls := [call] }

/-- The struct `GetLyrcsRequest` once bound. -/
structure GetLyrcsRequest where
  SongID : UUID
  VerseCurrent : Nat
  VerseCount : Option Nat
deriving DecidableEq

/-- The handler `handleGetLyrcs`. `bound` is the outcome of `c.BindUri`
followed by `c.Bind`, `none` when either fails. -/
def handleGetLyrcs (getSongByID : UUID → Song × Option String)
    (bound : Option GetLyrcsRequest) : Handled :=
  match bound with
  | none => { response := some WrongParametersError, calls := [] }
  | some request =>
    let verseCount :=
      match request.VerseCount with
      | some count => count
      | none => VERSE_COUNT_DEFAULT
    if verseCount > VERSE_COUNT_DEFAULT then
      { response := some (BadPageSizeError verseCount), calls := [] }
    else
      let call := StoreCall.GetLyrcsBySongID request.SongID request.VerseCurrent verseCount
      match GetLyrcsBySongID getSongByID request.SongID request.VerseCurrent verseCount with
      | none => { response := none, calls := [call] }
      | some (_, some _) => { response := some WrongParametersError, calls := [call] }
      | some (lyrcs, none) =>
        { response := some (StatusOK, { Message := some (Payload.lyrcs lyrcs), Error := none })
          calls := [call] }

/-- The `type` of the error a handler answered with, if it answered with
one. -/
def Handled.errorKind (h : Handled) : Option String :=
  match h.response with
  | some (_, { Message := _, Error := some e }) => some e.Kind
  | _ => none

/-- The page size `handleGetSongs` works with: the requested one, or the
default when the request has none. -/
def effectivePageSize (request : GetSongsRequest) : Nat :=
  request.PageSize.getD 10

/-- The verse count `handleGetLyrcs` works with: the requested one, or the
default when the request has none. -/
def effectiveVerseCount (request : GetLyrcsRequest) : Nat :=
  request.VerseCount.getD 20

/-- Lines 283-288 of `handleGetSongs`: the answer written for what the store
returned. -/
def songsAnswer (result : Except String (List Song)) : Nat × Response :=
  match result with
  | Except.error _ => WrongParametersError
  | Except.ok songs => (StatusOK, { Message := some (Payload.songs songs), Error := none })

/-- A database that knows a single statement: it returns `rows` for the
statement `query` with the arguments `args` and an error for anything else.
It serves to observe which statement a handler really runs. -/
def answersOnly (query : String) (args : List Arg) (rows : List Song) :
    String → List Arg → Except String (List Song) :=
  fun q a => if q = query ∧ a = args then Except.ok rows else Except.error "unknown statement"

end SongLibrary

open SongLibrary

/-- C1: for every identifier and every partial song with K non-null fields
among name, text, group, link and date, the SET list of the statement of
`buildUpdateQuery` has exactly K clauses, the i-th one assigning placeholder
`$i` to the i-th non-null field in that order; the statement ends with
`WHERE song_id = $(K+1)`; and the arguments are the K non-null values in the
same order followed by the identifier, K+1 in all. -/
theorem buildUpdateQuery_contract (songID : UUID) (song : Song) :
    (presentFields (updateFields song)).length = updateFieldCount song
    ∧ (buildUpdateQuery songID song).1
        = "UPDATE songs SET " ++ ", ".intercalate (updateSetClauses song).1
            ++ " WHERE song_id = $" ++ toString (updateFieldCount song + 1)
    ∧ (updateSetClauses song).1.length = updateFieldCount song
    ∧ (∀ i : Nat, (updateSetClauses song).1[i]?
        = ((presentFields (updateFields song))[i]?).map
            fun f => placeholderClause (f.1 ++ " = ") (i + 1))
    ∧ (buildUpdateQuery songID song).2
        = (presentFields (updateFields song)).map (fun f => f.2) ++ [Arg.uuid songID]
    ∧ (buildUpdateQuery songID song).2.length = updateFieldCount song + 1 := by
  obtain ⟨sid, name, text, grp, link, date⟩ := song
  cases name <;> cases text <;> cases grp <;> cases link <;> cases date <;>
    refine ⟨rfl, rfl, rfl, ?_, rfl, rfl⟩ <;>
    intro i <;> rcases i with _ | _ | _ | _ | _ | i <;> rfl

/-! ## The verse window -/

/-- A slice expression within bounds succeeds, and yields the elements at
the indices from `lo` up to `hi`, in order. -/
theorem sliceExpr_within {α : Type} (xs : List α) (lo hi : Nat) (hlo : lo ≤ hi)
    (hhi : hi ≤ xs.length) :
    ∃ r, sliceExpr xs lo hi = some r ∧ r.length = hi - lo
      ∧ ∀ i : Nat, i < r.length → r[i]? = xs[lo + i]? := by
  refine ⟨(xs.take hi).drop lo, ?_, ?_, ?_⟩
  · simp [sliceExpr, hlo, hhi]
  · simp [List.length_drop, List.length_take, Nat.min_eq_left hhi]
  · intro i hi'
    have hlen : i < hi - lo := by
      simpa [List.length_drop, List.length_take, Nat.min_eq_left hhi] using hi'
    rw [List.getElem?_drop, List.getElem?_take]
    simp
    intro h
    omega

/-- Without wrap-around of the `uint` sum, `extractVerses` succeeds past its
first guard and yields the verses from the start up to the clamped end. -/
theorem extractVerses_no_wrap (songText : String) (verseCurrent verseCount : Nat)
    (hstart : verseCurrent < (splitVerses songText).length)
    (hsum : verseCurrent + verseCount < 2 ^ 64) :
    ∃ r, extractVerses songText verseCurrent verseCount = some r
      ∧ r.length
          = min (verseCurrent + verseCount) (splitVerses songText).length - verseCurrent
      ∧ ∀ i : Nat, i < r.length → r[i]? = (splitVerses songText)[verseCurrent + i]? := by
  have hmod : uintAdd verseCurrent verseCount = verseCurrent + verseCount :=
    Nat.mod_eq_of_lt hsum
  have hnot : ¬ verseCurrent ≥ (splitVerses songText).length := Nat.not_le.mpr hstart
  by_cases hgt : verseCurrent + verseCount > (splitVerses songText).length
  · obtain ⟨r, hr, hlen, hget⟩ :=
      sliceExpr_within (splitVerses songText) verseCurrent (splitVerses songText).length
        (Nat.le_of_lt hstart) (Nat.le_refl _)
    refine ⟨r, ?_, ?_, hget⟩
    · simp only [extractVerses, hmod, if_neg hnot, if_pos hgt]
      exact hr
    · rw [hlen, Nat.min_eq_right (Nat.le_of_lt hgt)]
  · obtain ⟨r, hr, hlen, hget⟩ :=
      sliceExpr_within (splitVerses songText) verseCurrent (verseCurrent + verseCount)
        (Nat.le_add_right _ _) (Nat.not_lt.mp hgt)
    refine ⟨r, ?_, ?_, hget⟩
    · simp only [extractVerses, hmod, if_neg hnot, if_neg hgt]
      exact hr
    · rw [hlen, Nat.min_eq_left (Nat.not_lt.mp hgt)]

/-- C3: for every text, start and count, if start is at least the number of
verses of the text, `extractVerses` returns the empty sequence and does not
fail. -/
theorem extractVerses_start_beyond (songText : String) (verseCurrent verseCount : Nat)
    (hstart : (splitVerses songText).length ≤ verseCurrent) :
    extractVerses songText verseCurrent verseCount = some [] := by
  simp only [extractVerses]
  rw [if_pos hstart]

/-- Witness: start 2 on a text of two verses. -/
theorem extractVerses_start_beyond_witness :
    (splitVerses "A\n\nB").length ≤ 2 ∧ extractVerses "A\n\nB" 2 3 = some [] :=
  ⟨by decide, extractVerses_start_beyond "A\n\nB" 2 3 (by decide)⟩

/-! ## The filter statement -/

/-- C4: for every filter, page index and page size, `buildFilterQuery` emits
exactly one condition per non-null filter field and none for a null one, in
the order name, date, group, joined by `AND`; the i-th condition uses
placeholder `$i`; and the arguments are exactly the non-null values in that
order, as many as there are conditions. -/
theorem buildFilterQuery_contract (pageCurrent pageSize : Nat) (filter : SongsFilter) :
    (presentFields (filterFields filter)).length = filterFieldCount filter
    ∧ (filterWhereClauses filter).1.length = filterFieldCount filter
    ∧ (∀ i : Nat, (filterWhereClauses filter).1[i]?
        = ((presentFields (filterFields filter))[i]?).map
            fun f => placeholderClause f.1 (i + 1))
    ∧ filterWhere filter
        = (if filterFieldCount filter = 0 then ""
           else "WHERE " ++ " AND ".intercalate (filterWhereClauses filter).1)
    ∧ (buildFilterQuery pageCurrent pageSize filter).1
        = "SELECT song_id, song_name, song_text, group_name, link, release_date FROM songs "
            ++ filterWhere filter ++ " LIMIT " ++ toString pageSize
            ++ " OFFSET " ++ toString pageCurrent ++ ";"
    ∧ (buildFilterQuery pageCurrent pageSize filter).2
        = (presentFields (filterFields filter)).map (fun f => f.2)
    ∧ (buildFilterQuery pageCurrent pageSize filter).2.length
        = (filterWhereClauses filter).1.length := by
  obtain ⟨name, date, grp⟩ := filter
  cases name <;> cases date <;> cases grp <;>
    refine ⟨rfl, rfl, ?_, rfl, rfl, rfl, rfl⟩ <;>
    intro i <;> rcases i with _ | _ | _ | i <;> rfl

/-! ## Presence of the `WHERE` clause -/

/-- A decimal digit of a rendered number is never the letter `W`. -/
theorem digitChar_ne_W (n : Nat) : Nat.digitChar (n % 10) ≠ 'W' := by
  have h : n % 10 < 10 := Nat.mod_lt n (by decide)
  generalize n % 10 = d at h
  interval_cases d <;> decide

/-- The digits produced for a number never include the letter `W`. -/
theorem toDigitsCore_ne_W (fuel : Nat) : ∀ (n : Nat) (acc : List Char),
    (∀ c ∈ acc, c ≠ 'W') → ∀ c ∈ Nat.toDigitsCore 10 fuel n acc, c ≠ 'W' := by
  induction fuel with
  | zero => intro n acc h; simpa [Nat.toDigitsCore] using h
  | succ fuel ih =>
    intro n acc h
    simp only [Nat.toDigitsCore]
    split
    · intro c hc
      rcases List.mem_cons.mp hc with rfl | hc
      · exact digitChar_ne_W _
      · exact h c hc
    · apply ih
      intro c hc
      rcases List.mem_cons.mp hc with rfl | hc
      · exact digitChar_ne_W _
      · exact h c hc

/-- The decimal rendering of a number does not contain the letter `W`. -/
theorem toString_ne_W (n : Nat) : 'W' ∉ (toString n).toList := by
  intro hc
  have h : (toString n).toList = Nat.toDigits 10 n := rfl
  rw [h] at hc
  exact toDigitsCore_ne_W _ _ _ (by simp) 'W' hc rfl

/-- The characters of a concatenation. -/
theorem toList_append (a b : String) : (a ++ b).toList = a.toList ++ b.toList :=
  rfl

/-- A text occurs in every text built around it. -/
theorem occurs_between (before sub after : String) :
    Occurs sub (before ++ (sub ++ after)) := by
  unfold Occurs
  simp only [toList_append]
  exact ⟨before.toList, after.toList, by simp⟩

/-- The unfiltered statement has no `WHERE`. -/
theorem unfiltered_no_where (pageCurrent pageSize : Nat) :
    ¬ Occurs "WHERE" (buildFilterQuery pageCurrent pageSize ⟨none, none, none⟩).1 := by
  intro h
  have hW : 'W' ∈ (buildFilterQuery pageCurrent pageSize ⟨none, none, none⟩).1.toList :=
    h.subset (by decide)
  have hq : (buildFilterQuery pageCurrent pageSize ⟨none, none, none⟩).1
      = "SELECT song_id, song_name, song_text, group_name, link, release_date FROM songs "
          ++ "" ++ " LIMIT " ++ toString pageSize ++ " OFFSET " ++ toString pageCurrent ++ ";" :=
    rfl
  rw [hq] at hW
  simp only [toList_append, List.mem_append] at hW
  rcases hW with ((((((hW | hW) | hW) | hW) | hW) | hW) | hW)
  · revert hW; decide
  · revert hW; decide
  · revert hW; decide
  · exact toString_ne_W _ hW
  · revert hW; decide
  · exact toString_ne_W _ hW
  · revert hW; decide

/-- C5: for every page index and page size, the statement of
`buildFilterQuery` for a filter with no field set contains no `WHERE` and
comes with an empty argument list; and for every filter, the statement
contains `WHERE` exactly when at least one filter field is set. -/
theorem buildFilterQuery_where_iff (pageCurrent pageSize : Nat) (filter : SongsFilter) :
    (¬ Occurs "WHERE" (buildFilterQuery pageCurrent pageSize ⟨none, none, none⟩).1
      ∧ (buildFilterQuery pageCurrent pageSize ⟨none, none, none⟩).2 = [])
    ∧ (Occurs "WHERE" (buildFilterQuery pageCurrent pageSize filter).1
        ↔ (filter.SongName.isSome ∨ filter.ReleaseDate.isSome ∨ filter.GroupName.isSome)) := by
  refine ⟨⟨unfiltered_no_where pageCurrent pageSize, rfl⟩, ?_⟩
  obtain ⟨name, date, grp⟩ := filter
  have key : ∀ rest : String, Occurs "WHERE"
      ("SELECT song_id, song_name, song_text, group_name, link, release_date FROM songs "
        ++ ("WHERE " ++ rest) ++ " LIMIT " ++ toString pageSize
        ++ " OFFSET " ++ toString pageCurrent ++ ";") := by
    intro rest
    have h := occurs_between
      "SELECT song_id, song_name, song_text, group_name, link, release_date FROM songs "
      "WHERE" (" " ++ rest ++ " LIMIT " ++ toString pageSize
        ++ " OFFSET " ++ toString pageCurrent ++ ";")
    unfold Occurs at h ⊢
    simp only [toList_append, List.append_assoc] at h ⊢
    exact h
  cases name <;> cases date <;> cases grp
  · simpa using unfiltered_no_where pageCurrent pageSize
  all_goals
    simp only [Option.isSome_some, Option.isSome_none, or_true, true_or, iff_true]
    exact key _

/-! ## What the list handler runs -/

/-- The page size `handleGetSongs` computes is the effective page size. -/
theorem pageSize_eq_effective (request : GetSongsRequest) :
    (match request.PageSize with
      | some size => size
      | none => PAGE_SIZE_DEAFULT) = effectivePageSize request := by
  obtain ⟨page, size, name, grp, date⟩ := request
  cases size <;> rfl

/-- Above the maximum, `handleGetSongs` answers `BadPageSize` whatever the
database would say, and calls nothing. -/
theorem handleGetSongs_refuse
    (dbQuery : String → List Arg → Except String (List Song)) (request : GetSongsRequest)
    (hsize : effectivePageSize request > 50) :
    handleGetSongs dbQuery (some request)
      = ⟨some (BadPageSizeError (effectivePageSize request)), []⟩ := by
  have hmax : effectivePageSize request > PAGE_SIZE_MAX := hsize
  simp only [handleGetSongs, pageSize_eq_effective, if_pos hmax]

/-- Up to the maximum, `handleGetSongs` runs the statement that
`buildFilterQuery` builds from the page index, the effective page size and
the filter of the request, with its arguments, and answers with what the
database returns for it. -/
theorem handleGetSongs_run
    (dbQuery : String → List Arg → Except String (List Song)) (request : GetSongsRequest)
    (hsize : effectivePageSize request ≤ 50) :
    handleGetSongs dbQuery (some request)
      = ⟨some (songsAnswer
            (dbQuery
              (buildFilterQuery request.PageCurrent (effectivePageSize request)
                ⟨request.SongName, request.ReleaseDate, request.GroupName⟩).1
              (buildFilterQuery request.PageCurrent (effectivePageSize request)
                ⟨request.SongName, request.ReleaseDate, request.GroupName⟩).2)),
         [StoreCall.GetSongsFiltered request.PageCurrent (effectivePageSize request)
            ⟨request.SongName, request.ReleaseDate, request.GroupName⟩]⟩ := by
  have hmax : ¬ effectivePageSize request > PAGE_SIZE_MAX := Nat.not_lt.mpr hsize
  simp only [handleGetSongs, pageSize_eq_effective, if_neg hmax, GetSongsFiltered]
  cases dbQuery
      (buildFilterQuery request.PageCurrent (effectivePageSize request)
        ⟨request.SongName, request.ReleaseDate, request.GroupName⟩).1
      (buildFilterQuery request.PageCurrent (effectivePageSize request)
        ⟨request.SongName, request.ReleaseDate, request.GroupName⟩).2 <;> rfl

/-! ## The conditions of the filter -/

/-- On a pattern without special characters, `LIKE` is equality. -/
theorem likeMatch_literal : ∀ (pattern subject : List Char),
    (∀ c ∈ pattern, c ≠ '%' ∧ c ≠ '_' ∧ c ≠ '\\') →
    (likeMatch pattern subject = true ↔ subject = pattern) := by
  intro pattern
  induction pattern with
  | nil =>
    intro subject _
    cases subject <;> simp [likeMatch]
  | cons c pattern ih =>
    intro subject h
    obtain ⟨h1, h2, h3⟩ := h c (List.mem_cons_self _ _)
    have ih' := fun s => ih s (fun d hd => h d (List.mem_cons_of_mem _ hd))
    cases subject with
    | nil =>
      rw [likeMatch]
      · simp
      · exact fun hc => h1 hc
      · exact fun hc => h2 hc
      · exact fun hc _ => h3 hc
      · exact fun _ _ hc _ => h3 hc
    | cons x rest =>
      rw [likeMatch]
      · simp [ih' rest]
      · exact fun hc => h1 hc
      · exact fun hc => h2 hc
      · exact fun hc _ => h3 hc
      · exact fun _ _ hc _ => h3 hc

/-- C6: the code does not emit `release_date = $n`. For every filter whose
release date is set, the date condition of `buildFilterQuery`, which is the
first condition when no name is given and the second otherwise, is
`release_date == $n` with a doubled equals sign; so for the date 09.03.2013
alone the statement reads `... WHERE release_date == $1 ...`. -/
theorem buildFilterQuery_date_condition (name grp : Option String) (date : Time) :
    (filterWhereClauses ⟨name, some date, grp⟩).1[if name.isSome then 1 else 0]?
        = some ("release_date == $" ++ toString ((if name.isSome then 1 else 0) + 1))
    ∧ (filterWhereClauses ⟨name, some date, grp⟩).1[if name.isSome then 1 else 0]?
        ≠ some ("release_date = $" ++ toString ((if name.isSome then 1 else 0) + 1))
    ∧ (buildFilterQuery 0 10 ⟨none, some ⟨1362787200⟩, none⟩).1
        = "SELECT song_id, song_name, song_text, group_name, link, release_date FROM songs WHERE release_date == $1 LIMIT 10 OFFSET 0;" := by
  cases name with
  | none =>
    cases grp <;> refine ⟨by rfl, fun h => ?_, by decide⟩ <;>
      exact absurd (show some ("release_date == $" ++ toString 1)
          = some ("release_date = $" ++ toString 1) from h) (by decide)
  | some _ =>
    cases grp <;> refine ⟨by rfl, fun h => ?_, by decide⟩ <;>
      exact absurd (show some ("release_date == $" ++ toString 2)
          = some ("release_date = $" ++ toString 2) from h) (by decide)

/-- C8: for every page index `p`, page size `s` and filter, the statement of
`buildFilterQuery` is the filtered `SELECT` followed by
`LIMIT s OFFSET p;`, so that it ends with the limit `s` and the offset `p`
itself (page 3 of size 10 gives `OFFSET 3`); `p` and `s` are not among the
arguments, which hold no `uint` and do not depend on them. -/
theorem buildFilterQuery_limit_offset (pageCurrent pageSize : Nat) (filter : SongsFilter) :
    (buildFilterQuery pageCurrent pageSize filter).1
        = ("SELECT song_id, song_name, song_text, group_name, link, release_date FROM songs "
            ++ filterWhere filter)
          ++ (" LIMIT " ++ toString pageSize ++ " OFFSET " ++ toString pageCurrent ++ ";")
    ∧ EndsWith (buildFilterQuery pageCurrent pageSize filter).1
        (" LIMIT " ++ toString pageSize ++ " OFFSET " ++ toString pageCurrent ++ ";")
    ∧ (∀ n : Nat, Arg.uint n ∉ (buildFilterQuery pageCurrent pageSize filter).2)
    ∧ (buildFilterQuery pageCurrent pageSize filter).2 = (buildFilterQuery 0 0 filter).2
    ∧ (buildFilterQuery 3 10 ⟨none, none, none⟩).1
        = "SELECT song_id, song_name, song_text, group_name, link, release_date FROM songs  LIMIT 10 OFFSET 3;" := by
  have hq : (buildFilterQuery pageCurrent pageSize filter).1
      = ("SELECT song_id, song_name, song_text, group_name, link, release_date FROM songs "
          ++ filterWhere filter)
        ++ (" LIMIT " ++ toString pageSize ++ " OFFSET " ++ toString pageCurrent ++ ";") := by
    apply String.toList_inj.mp
    show (_ ++ _ ++ _ ++ _ ++ _ ++ _ ++ _ : String).toList = _
    simp only [toList_append, List.append_assoc]
  refine ⟨hq, ?_, ?_, rfl, by decide⟩
  · unfold EndsWith
    rw [hq, toList_append]
    exact List.suffix_append _ _
  · intro n
    obtain ⟨name, date, grp⟩ := filter
    cases name <;> cases date <;> cases grp <;> simp [buildFilterQuery, filterWhereClauses]

/-! ## The size gates of the handlers -/

/-- C9: in `handleGetSongs` the effective page size is the requested
`page_size`, or 10 when it is omitted; the request is answered with the
`BadPageSize` error, status 400, exactly when the effective page size
exceeds 50, and then the store is not called; otherwise the store is called
once, with the page index, the effective page size and the filter of the
request: the handler runs the statement built from them and answers with
what the database returns for it. A page size of 51 is rejected with
`BadPageSize`; a page size of 50 reaches the store unchanged, so that a
database that knows only the statement ending in `LIMIT 50 OFFSET 3;` is
answered from, and one that knows only `LIMIT 3 OFFSET 50;` is not. -/
theorem handleGetSongs_page_size_gate
    (dbQuery : String → List Arg → Except String (List Song)) (request : GetSongsRequest) :
    ((handleGetSongs dbQuery (some request)).errorKind = some "BadPageSize"
        ↔ effectivePageSize request > 50)
    ∧ ((handleGetSongs dbQuery (some request)).response
          = some (BadPageSizeError (effectivePageSize request))
        ↔ effectivePageSize request > 50)
    ∧ (BadPageSizeError (effectivePageSize request)).1 = 400
    ∧ (handleGetSongs dbQuery (some request)).calls
        = (if effectivePageSize request > 50 then []
           else [StoreCall.GetSongsFiltered request.PageCurrent (effectivePageSize request)
                  ⟨request.SongName, request.ReleaseDate, request.GroupName⟩])
    ∧ handleGetSongs dbQuery (some { request with PageSize := some 51 })
        = ⟨some (400, ⟨none, some ⟨"BadPageSize",
            "Page size more than 50 is not allowed. Yours is 51."⟩⟩), []⟩
    ∧ (handleGetSongs dbQuery (some { request with PageSize := some 50 })).calls
        = [StoreCall.GetSongsFiltered request.PageCurrent 50
            ⟨request.SongName, request.ReleaseDate, request.GroupName⟩]
    ∧ (handleGetSongs dbQuery (some { request with PageSize := none })).calls
        = [StoreCall.GetSongsFiltered request.PageCurrent 10
            ⟨request.SongName, request.ReleaseDate, request.GroupName⟩]
    ∧ handleGetSongs dbQuery (some request)
        = (if effectivePageSize request > 50 then
             ⟨some (BadPageSizeError (effectivePageSize request)), []⟩
           else
             ⟨some (songsAnswer
                (dbQuery
                  (buildFilterQuery request.PageCurrent (effectivePageSize request)
                    ⟨request.SongName, request.ReleaseDate, request.GroupName⟩).1
                  (buildFilterQuery request.PageCurrent (effectivePageSize request)
                    ⟨request.SongName, request.ReleaseDate, request.GroupName⟩).2)),
              [StoreCall.GetSongsFiltered request.PageCurrent (effectivePageSize request)
                ⟨request.SongName, request.ReleaseDate, request.GroupName⟩]⟩)
    ∧ handleGetSongs
          (answersOnly
            "SELECT song_id, song_name, song_text, group_name, link, release_date FROM songs  LIMIT 50 OFFSET 3;"
            [] [⟨⟨1⟩, some "Love Story", none, none, none, none⟩])
          (some ⟨3, some 50, none, none, none⟩)
        = ⟨some (200, ⟨some (Payload.songs [⟨⟨1⟩, some "Love Story", none, none, none, none⟩]),
            none⟩), [StoreCall.GetSongsFiltered 3 50 ⟨none, none, none⟩]⟩
    ∧ (handleGetSongs
          (answersOnly
            "SELECT song_id, song_name, song_text, group_name, link, release_date FROM songs  LIMIT 3 OFFSET 50;"
            [] [⟨⟨1⟩, some "Love Story", none, none, none, none⟩])
          (some ⟨3, some 50, none, none, none⟩)).response
        = some WrongParametersError := by
  obtain ⟨page, size, name, grp, date⟩ := request
  have hgate : ∀ size : Option Nat,
      ((handleGetSongs dbQuery (some ⟨page, size, name, grp, date⟩)).errorKind
          = some "BadPageSize" ↔ size.getD 10 > 50)
      ∧ ((handleGetSongs dbQuery (some ⟨page, size, name, grp, date⟩)).response
          = some (BadPageSizeError (size.getD 10)) ↔ size.getD 10 > 50)
      ∧ (handleGetSongs dbQuery (some ⟨page, size, name, grp, date⟩)).calls
          = (if size.getD 10 > 50 then []
             else [StoreCall.GetSongsFiltered page (size.getD 10) ⟨name, date, grp⟩]) := by
    intro size
    have hsize : (match size with
        | some size => size
        | none => PAGE_SIZE_DEAFULT) = size.getD 10 := by
      cases size <;> rfl
    by_cases h : size.getD 10 > 50
    · simp [handleGetSongs, PAGE_SIZE_MAX, hsize, h, Handled.errorKind, BadPageSizeError]
    · simp only [handleGetSongs, PAGE_SIZE_MAX, hsize, h, if_false, iff_false]
      cases GetSongsFiltered dbQuery page (size.getD 10) ⟨name, date, grp⟩ <;>
        simp [Handled.errorKind, WrongParametersError, BadPageSizeError, StatusOK]
  obtain ⟨h1, h2, h3⟩ := hgate size
  refine ⟨h1, h2, rfl, h3, ?_, ?_, ?_, ?_, by decide, by decide⟩
  · simp [handleGetSongs, PAGE_SIZE_MAX, BadPageSizeError, StatusBadRequest]
    decide
  · exact (hgate (some 50)).2.2
  · exact (hgate none).2.2
  · by_cases h : effectivePageSize ⟨page, size, name, grp, date⟩ > 50
    · rw [if_pos h]
      exact handleGetSongs_refuse dbQuery _ h
    · rw [if_neg h]
      exact handleGetSongs_run dbQuery _ (Nat.not_lt.mp h)

/-- C10: the code does not gate the verse count at 50 with `BadVerseCount`.
`handleGetLyrcs` answers with the `BadPageSize` error exactly when the
effective verse count (the requested one, or 20) exceeds the default 20, and
never with `BadVerseCount`: a verse count of 30, below the maximum 50, is
rejected with status 400 and `BadPageSize` without a call to the store, and
so is a verse count of 51. -/
theorem handleGetLyrcs_verse_count_gate
    (getSongByID : UUID → Song × Option String) (request : GetLyrcsRequest) :
    ((handleGetLyrcs getSongByID (some request)).errorKind = some "BadPageSize"
        ↔ effectiveVerseCount request > 20)
    ∧ (handleGetLyrcs getSongByID (some request)).errorKind ≠ some "BadVerseCount"
    ∧ (30 ≤ VERSE_COUNT_MAX
        ∧ handleGetLyrcs getSongByID (some { request with VerseCount := some 30 })
          = ⟨some (400, ⟨none, some ⟨"BadPageSize",
              "Page size more than 50 is not allowed. Yours is 30."⟩⟩), []⟩)
    ∧ handleGetLyrcs getSongByID (some { request with VerseCount := some 51 })
        = ⟨some (400, ⟨none, some ⟨"BadPageSize",
            "Page size more than 50 is not allowed. Yours is 51."⟩⟩), []⟩
    ∧ BadVerseCountError 51
        = (400, ⟨none, some ⟨"BadVerseCount",
            "Verse count more than 50 is not allowed. Yours is 51."⟩⟩) := by
  obtain ⟨songID, current, count⟩ := request
  have hcount : (match count with
      | some count => count
      | none => 20) = count.getD 20 := by
    cases count <;> rfl
  refine ⟨?_, ?_, ⟨by decide, ?_⟩, ?_, by decide⟩
  · by_cases h : count.getD 20 > 20
    · simp [handleGetLyrcs, VERSE_COUNT_DEFAULT, hcount, h, Handled.errorKind,
        BadPageSizeError, effectiveVerseCount]
    · simp only [handleGetLyrcs, VERSE_COUNT_DEFAULT, hcount, h, if_false, iff_false,
        effectiveVerseCount]
      rcases GetLyrcsBySongID getSongByID songID current (count.getD 20)
        with _ | ⟨lyrcs, _ | err⟩ <;>
        simp [Handled.errorKind, WrongParametersError]
  · by_cases h : count.getD 20 > 20
    · simp [handleGetLyrcs, VERSE_COUNT_DEFAULT, hcount, h, Handled.errorKind,
        BadPageSizeError]
    · simp only [handleGetLyrcs, VERSE_COUNT_DEFAULT, hcount, h, if_false]
      rcases GetLyrcsBySongID getSongByID songID current (count.getD 20)
        with _ | ⟨lyrcs, _ | err⟩ <;>
        simp [Handled.errorKind, WrongParametersError]
  · simp [handleGetLyrcs, VERSE_COUNT_DEFAULT, BadPageSizeError, StatusBadRequest]
    decide
  · simp [handleGetLyrcs, VERSE_COUNT_DEFAULT, BadPageSizeError, StatusBadRequest]
    decide

/-! ## The slice bounds of the verse window -/

/-- Past its first guard, `extractVerses` is the slice expression from the
start to the clamped end bound. -/
theorem extractVerses_of_lt (songText : String) (verseCurrent verseCount : Nat)
    (hstart : verseCurrent < (splitVerses songText).length) :
    extractVerses songText verseCurrent verseCount
      = sliceExpr (splitVerses songText) verseCurrent
          (if uintAdd verseCurrent verseCount > (splitVerses songText).length
           then (splitVerses songText).length else uintAdd verseCurrent verseCount) := by
  have hnot : ¬ verseCurrent ≥ (splitVerses songText).length := Nat.not_le.mpr hstart
  simp only [extractVerses, if_neg hnot]

/-- A slice expression succeeds exactly when its bounds are in order and
within the length, and then yields `hi - lo` elements. -/
theorem sliceExpr_length {α : Type} (xs : List α) (lo hi : Nat) :
    (sliceExpr xs lo hi = none ↔ ¬ (lo ≤ hi ∧ hi ≤ xs.length))
    ∧ ((sliceExpr xs lo hi).map List.length).getD 0 ≤ hi - lo := by
  by_cases h : lo ≤ hi ∧ hi ≤ xs.length
  · simp [sliceExpr, h, List.length_drop, List.length_take]
  · simp [sliceExpr, h]

/-- For `uint` arguments `extractVerses` fails exactly when the start is below
the number of verses and start plus count reaches `2 ^ 64`; when it returns,
it returns at most count verses. -/
theorem extractVerses_fails_iff (songText : String)
    (verseCurrent verseCount : Fin (2 ^ 64)) :
    (extractVerses songText verseCurrent.val verseCount.val = none
        ↔ verseCurrent.val < (splitVerses songText).length
          ∧ 2 ^ 64 ≤ verseCurrent.val + verseCount.val)
    ∧ ((extractVerses songText verseCurrent.val verseCount.val).map List.length).getD 0
        ≤ verseCount.val := by
  refine ⟨?_, ?_⟩
  · by_cases hstart : verseCurrent.val < (splitVerses songText).length
    · rw [extractVerses_of_lt songText _ _ hstart, (sliceExpr_length _ _ _).1]
      have hs := verseCurrent.isLt
      have hc := verseCount.isLt
      unfold uintAdd
      split <;> omega
    · have hge : (splitVerses songText).length ≤ verseCurrent.val := Nat.not_lt.mp hstart
      simp [extractVerses, hge, hstart]
  · by_cases hstart : verseCurrent.val < (splitVerses songText).length
    · rw [extractVerses_of_lt songText _ _ hstart]
      refine Nat.le_trans (sliceExpr_length _ _ _).2 ?_
      have hs := verseCurrent.isLt
      have hc := verseCount.isLt
      unfold uintAdd
      split <;> omega
    · have hge : (splitVerses songText).length ≤ verseCurrent.val := Nat.not_lt.mp hstart
      simp [extractVerses, hge]

